import Mathlib

/-!
Verification development for the resume-analyzer pipeline
(`resume_analyzer.py`): a shallow embedding of the text normalizer,
regex-based field extractors, section segmenter, quality and format
analyzers, scorer and recommendation engine, together with theorems
settling the specification claims.

Modelling conventions:
* Python strings are Lean `String`s / `List Char`.
* Python regexes are compiled by hand into a small `RE` AST whose
  matcher reproduces Python's leftmost / backtracking (greedy,
  left-alternative-first) semantics for the pattern subset the source
  uses (character classes, literals, alternation, optional groups,
  greedy `+`/`*`/`{lo,hi}` over character classes, `\b`).
* `re.IGNORECASE` is modelled with ASCII case folding (`Char.toLower`);
  the accented letters appearing in a few French patterns are compared
  verbatim.  `\w` / `str.isupper` are modelled by their ASCII meaning.
* Python `set` iteration order is unspecified; wherever the source
  iterates a set literal (gazetteers, vocabulary lists, `list(set(..))`
  dedup) the model fixes the source-listing order and first-occurrence
  dedup.  No claim below depends on that order.
* The spaCy linguistic capability (passive-voice detection, sentence
  segmentation) is external; it is modelled as an oracle parameter.
* Floating point: the source rounds `estimated_pages`, `caps_ratio` and
  `avg_bullet_length` for display only; the model keeps the exact
  rational value.  All control flow uses the unrounded values, as in
  the source.
-/

namespace ResumeAnalyzer

/-! ### Character classes -/

/-- Python `\s` (ASCII whitespace as used by `str.split`/`str.strip`). -/
def isPyWs (c : Char) : Bool :=
  c = ' ' || c = '\t' || c = '\n' || c = '\r' || c = '\x0b' || c = '\x0c'

/-- Python `\w` (ASCII restriction): alphanumeric or underscore. -/
def isWordChar (c : Char) : Bool :=
  c.isAlphanum || c = '_'

/-- ASCII letter. -/
def isAsciiLetter (c : Char) : Bool :=
  ('a' ≤ c && c ≤ 'z') || ('A' ≤ c && c ≤ 'Z')

/-- ASCII digit, Python `\d` (ASCII restriction). -/
def isDigitChar (c : Char) : Bool :=
  '0' ≤ c && c ≤ '9'

/-- Case-insensitive character comparison (ASCII fold), for
`re.IGNORECASE`. -/
def ciEq (c d : Char) : Bool :=
  c.toLower = d.toLower

/-- Lowercase a string as Python `str.lower()` (ASCII fold). -/
def pyLower (s : List Char) : List Char :=
  s.map Char.toLower

/-! ### `PDFExtractor.clean_text` -/

/-- Membership is preserved by `dropWhile`. -/
theorem mem_of_mem_dropWhile' (p : Char → Bool) :
    ∀ (l : List Char) (c : Char), c ∈ l.dropWhile p → c ∈ l := by
  intro l
  induction l with
  | nil => simp [List.dropWhile]
  | cons d cs ih =>
    intro c hc
    by_cases h : p d
    · simp only [List.dropWhile, h] at hc
      exact List.mem_cons_of_mem d (ih c hc)
    · simpa [List.dropWhile, h] using hc

/-- Worker for whitespace collapsing; the flag records whether the
previous input character was whitespace (so the single replacement
space has already been emitted for the current run). -/
def collapseWsAux : Bool → List Char → List Char
  | _, [] => []
  | prevWs, c :: cs =>
    if isPyWs c then
      if prevWs then collapseWsAux true cs
      else ' ' :: collapseWsAux true cs
    else c :: collapseWsAux false cs

/-- First step of `clean_text`: `re.sub(r'\s+', ' ', text)` — collapse
every maximal whitespace run to a single space. -/
def collapseWs (l : List Char) : List Char :=
  collapseWsAux false l

/-- Second step of `clean_text`: `re.sub(r'[^\w\s\n@.\-+(),/;:]', '', text)`
— keep only word characters, whitespace and the listed punctuation. -/
def isAllowedChar (c : Char) : Bool :=
  isWordChar c || isPyWs c ||
    c = '@' || c = '.' || c = '-' || c = '+' || c = '(' || c = ')' ||
    c = ',' || c = '/' || c = ';' || c = ':'

/-- Python `str.strip()`: drop leading and trailing whitespace. -/
def pyStrip (l : List Char) : List Char :=
  ((l.dropWhile isPyWs).reverse.dropWhile isPyWs).reverse

/-- `PDFExtractor.clean_text`: collapse whitespace, strip disallowed
characters, trim. -/
def cleanChars (l : List Char) : List Char :=
  pyStrip ((collapseWs l).filter isAllowedChar)

/-- String-level wrapper for `clean_text`. -/
def cleanText (s : String) : String :=
  ⟨cleanChars s.data⟩

/-- Every character that the collapsing worker outputs is either a
space or a non-whitespace character of the input: whitespace never
survives. -/
theorem collapseWsAux_ws_eq_space :
    ∀ (l : List Char) (b : Bool) (c : Char),
      c ∈ collapseWsAux b l → isPyWs c → c = ' ' := by
  intro l
  induction l with
  | nil => intro b c h; simp [collapseWsAux] at h
  | cons a cs ih =>
    intro b d hd hdws
    by_cases hws : isPyWs a
    · rw [collapseWsAux, if_pos hws] at hd
      cases b with
      | true => exact ih true d hd hdws
      | false =>
        rcases List.mem_cons.mp hd with h | h
        · exact h
        · exact ih true d h hdws
    · rw [collapseWsAux, if_neg hws] at hd
      rcases List.mem_cons.mp hd with h | h
      · subst h; simp [hdws] at hws
      · exact ih false d h hdws

/-- Whitespace-collapsing at the top level never outputs whitespace
other than spaces. -/
theorem collapseWs_ws_eq_space :
    ∀ (l : List Char) (c : Char), c ∈ collapseWs l → isPyWs c → c = ' ' :=
  fun l c h => collapseWsAux_ws_eq_space l false c h

/-- The cleaned text contains no newline: `clean_text` collapses every
newline into a plain space. -/
theorem cleanChars_no_newline (l : List Char) : '\n' ∉ cleanChars l := by
  intro hmem
  unfold cleanChars pyStrip at hmem
  have h1 : '\n' ∈ (collapseWs l).filter isAllowedChar := by
    have h2 := List.mem_reverse.mp hmem
    have h3 := mem_of_mem_dropWhile' isPyWs _ _ h2
    have h4 := List.mem_reverse.mp h3
    exact mem_of_mem_dropWhile' isPyWs _ _ h4
  have h5 : '\n' ∈ collapseWs l := List.mem_of_mem_filter h1
  have h6 : ('\n' : Char) = ' ' := collapseWs_ws_eq_space l '\n' h5 (by decide)
  exact absurd h6 (by decide)

/-! ### A small regex engine

The source compiles its patterns with Python `re`.  Every pattern it
uses falls into the fragment below: character classes, sequencing,
alternation, optional groups, and greedy `+` / `*` / `{lo,hi}`
repetition of a single character class, plus the zero-width word
boundary `\b`.  The matcher enumerates candidate match lengths in
Python's backtracking priority order (greedy repetition longest-first,
left alternative first), so the head of the list is the length Python's
engine reports. -/

inductive RE where
  | eps
  | cls (p : Char → Bool)
  | seq (a b : RE)
  | alt (a b : RE)
  | opt (a : RE)
  | plus (p : Char → Bool)
  | star (p : Char → Bool)
  | reps (p : Char → Bool) (lo hi : Nat)
  | wordB

/-- Word-ness of an optional character (string edges count as
non-word), for `\b`. -/
def isWordOpt : Option Char → Bool
  | none => false
  | some c => isWordChar c

/-- The character preceding position `n` of `cs`, given the character
`prev` preceding `cs` itself. -/
def prevAfter (prev : Option Char) (cs : List Char) (n : Nat) : Option Char :=
  if n = 0 then prev else cs[n - 1]?

/-- All match lengths of `r` at the start of `cs`, in backtracking
priority order; `prev` is the character just before `cs` (for `\b`). -/
def matchLens : RE → Option Char → List Char → List Nat
  | .eps, _, _ => [0]
  | .cls p, _, cs =>
    match cs with
    | [] => []
    | c :: _ => if p c then [1] else []
  | .seq a b, prev, cs =>
    (matchLens a prev cs).flatMap fun n =>
      (matchLens b (prevAfter prev cs n) (cs.drop n)).map (n + ·)
  | .alt a b, prev, cs => matchLens a prev cs ++ matchLens b prev cs
  | .opt a, prev, cs => matchLens a prev cs ++ [0]
  | .plus p, _, cs =>
    let m := (cs.takeWhile p).length
    (List.range m).map (fun k => m - k)
  | .star p, _, cs =>
    let m := (cs.takeWhile p).length
    (List.range (m + 1)).map (fun k => m - k)
  | .reps p lo hi, _, cs =>
    let m := min (cs.takeWhile p).length hi
    if m < lo then [] else (List.range (m - lo + 1)).map (fun k => m - k)
  | .wordB, prev, cs =>
    if isWordOpt prev != isWordOpt cs.head? then [0] else []

/-- Case-insensitive literal (for patterns compiled with
`re.IGNORECASE`). -/
def litCI (s : String) : RE :=
  s.data.foldr (fun c r => .seq (.cls (fun d => ciEq d c)) r) .eps

/-- `\s+` -/
def wsPlus : RE := .plus isPyWs

/-- `\s*` -/
def wsStar : RE := .star isPyWs

/-- Nested alternation, left-to-right, for multi-branch groups. -/
def altList : List RE → RE
  | [] => .cls (fun _ => false)
  | [r] => r
  | r :: rs => .alt r (altList rs)

/-- Search for `r` in `cs` under `re.MULTILINE` with a `^`-anchored
pattern: a match may start only at the beginning of the string or just
after a newline.  Returns `(start, end)` offsets of the leftmost match
(relative to the start of `cs` plus `i`); `prev` is the character
before the current suffix. -/
def searchMLFrom (r : RE) : Option Char → List Char → Nat → Option (Nat × Nat)
  | prev, cs, i =>
    let anchored := prev = none || prev = some '\n'
    match (if anchored then matchLens r prev cs else []).head? with
    | some n => some (i, i + n)
    | none =>
      match cs with
      | [] => none
      | c :: rest => searchMLFrom r (some c) rest (i + 1)

/-- Leftmost `^`-anchored multi-line search over a whole string slice
(position 0 of a slice counts as a line start, as for Python
`text[start:]`). -/
def searchML (r : RE) (cs : List Char) : Option (Nat × Nat) :=
  searchMLFrom r none cs 0

/-- Unanchored leftmost search (patterns without `^`). -/
def searchFrom (r : RE) : Option Char → List Char → Nat → Option (Nat × Nat)
  | prev, cs, i =>
    match (matchLens r prev cs).head? with
    | some n => some (i, i + n)
    | none =>
      match cs with
      | [] => none
      | c :: rest => searchFrom r (some c) rest (i + 1)

/-- Unanchored leftmost search from the start of `cs`. -/
def search (r : RE) (cs : List Char) : Option (Nat × Nat) :=
  searchFrom r none cs 0

/-- Does `r` match somewhere in `cs` (Python `re.search(..) is not
None`, no `^` anchor)? -/
def searchSome (r : RE) (cs : List Char) : Bool :=
  (search r cs).isSome

/-- One step of `re.findall`: find the next match in `cs`, returning
the matched characters, the rest of the input after the match, the
character preceding that rest, and a lower bound on progress.  Python
advances one character past a zero-width match. -/
def findallAux (r : RE) : Option Char → List Char → Nat → List (List Char)
  | _, _, 0 => []
  | prev, cs, fuel + 1 =>
    match searchFrom r prev cs 0 with
    | none => []
    | some (i, e) =>
      let matched := (cs.drop i).take (e - i)
      if e ≤ i then
        -- zero-width match: emit and advance one character
        matched :: findallAux r (cs[i]?) (cs.drop (i + 1)) fuel
      else
        matched :: findallAux r (cs[e - 1]?) (cs.drop e) fuel

/-- Python `re.findall` (patterns without capture groups): the list of
non-overlapping matches, scanning left to right. -/
def findall (r : RE) (cs : List Char) : List (List Char) :=
  findallAux r none cs (cs.length + 1)

/-- String versions of the matches. -/
def findallStr (r : RE) (s : String) : List String :=
  (findall r s.data).map (fun l => ⟨l⟩)

/-- Sequencing of a list of regexes. -/
def seqList (rs : List RE) : RE :=
  rs.foldr .seq .eps

/-! ### `SectionDetector` -/

/-- `SectionDetector.SECTION_PATTERNS`, compiled: each section name
with its ordered heading patterns.  All are `^`-anchored and searched
with `re.IGNORECASE | re.MULTILINE`; the `^` anchor lives in the search
function (`searchML`). -/
def sectionPatterns : List (String × List RE) :=
  [ ("experience",
      [ seqList [.opt (seqList [litCI "professional", wsPlus]),
                 .opt (seqList [litCI "work", wsPlus]), litCI "experience"],
        seqList [litCI "employment", wsPlus, litCI "history"],
        seqList [litCI "work", wsPlus, litCI "history"],
        seqList [litCI "career", wsPlus, litCI "history"],
        seqList [litCI "expérience", wsPlus, litCI "professionnelle"] ]),
    ("education",
      [ seqList [litCI "education",
                 .opt (seqList [litCI "al", wsPlus, litCI "background"])],
        seqList [litCI "academic", wsPlus,
                 .alt (litCI "background") (litCI "qualifications")],
        litCI "qualifications",
        litCI "formation" ]),
    ("skills",
      [ seqList [.opt (seqList [litCI "technical", wsPlus]), litCI "skills"],
        seqList [litCI "competenc", .alt (litCI "ies") (litCI "es")],
        litCI "expertise",
        litCI "compétences" ]),
    ("projects",
      [ seqList [litCI "academic", wsPlus, litCI "project", .opt (litCI "s")],
        seqList [litCI "project", .opt (litCI "s")],
        litCI "portfolio",
        litCI "projets" ]),
    ("certifications",
      [ seqList [litCI "certification", .opt (litCI "s")],
        seqList [litCI "license", .opt (litCI "s")],
        litCI "credentials" ]),
    ("summary",
      [ seqList [.opt (seqList [litCI "professional", wsPlus]), litCI "summary"],
        litCI "profile",
        litCI "objective",
        seqList [litCI "about", wsPlus, litCI "me"],
        litCI "résumé" ]),
    ("associative",
      [ seqList [litCI "associative", wsPlus, litCI "experience"],
        seqList [litCI "volunteer", wsPlus, litCI "experience"],
        litCI "activities" ]),
    ("languages",
      [ seqList [litCI "language", .opt (litCI "s")],
        seqList [litCI "langue", .opt (litCI "s")] ]) ]

/-- The fixed taxonomy of section names, in declaration order. -/
def sectionNames : List String :=
  sectionPatterns.map Prod.fst

/-- Patterns declared for one section (empty for unknown names, as
`dict.get(name, [])`). -/
def patternsOf (name : String) : List RE :=
  ((sectionPatterns.find? (fun q => q.1 = name)).map Prod.snd).getD []

/-- `SectionDetector.detect_sections`: presence boolean per section —
true if any of its patterns matches anywhere in the text. -/
def detect_sections (cs : List Char) : List (String × Bool) :=
  sectionPatterns.map fun q => (q.1, q.2.any fun r => (searchML r cs).isSome)

/-- Lookup in the section map (Python `sections.get(name)`, default
false). -/
def sectionPresent (m : List (String × Bool)) (name : String) : Bool :=
  (((m.find? (fun q => q.1 = name)).map Prod.snd).getD false)

/-- The first pattern in declaration order with a match, and that
match: the `for pattern in patterns: match = re.search(...)` loop head
of `extract_section_content`. -/
def firstPatternSearch : List RE → List Char → Option (Nat × Nat)
  | [], _ => none
  | r :: rs, cs =>
    match searchML r cs with
    | some m => some m
    | none => firstPatternSearch rs cs

/-- Every heading pattern of every *other* section, in dict order: the
candidates for the end of a section's span. -/
def otherPatterns (name : String) : List RE :=
  (sectionPatterns.filter (fun q => q.1 ≠ name)).flatMap Prod.snd

/-- The inner double loop of `extract_section_content`: starting from
`min_pos = len(text)`, lower it to `start + next_match.start()` for
every other-section pattern that matches in `text[start:]`. -/
def minOtherPos (name : String) (cs : List Char) (start : Nat) : Nat :=
  (otherPatterns name).foldl
    (fun m r =>
      match searchML r (cs.drop start) with
      | some (j, _) => min m (start + j)
      | none => m)
    cs.length

/-- The span `(start, stop)` that `extract_section_content` slices out
of `text`, if some pattern for `name` matches. -/
def extractSpan (cs : List Char) (name : String) : Option (Nat × Nat) :=
  match firstPatternSearch (patternsOf name) cs with
  | none => none
  | some (_, e) => some (e, minOtherPos name cs e)

/-- `SectionDetector.extract_section_content`: the text between the end
of the section's first heading match and the nearest following
other-section heading match, stripped; empty if no pattern matches. -/
def extract_section_content (cs : List Char) (name : String) : List Char :=
  match extractSpan cs name with
  | none => []
  | some (s, e) => pyStrip ((cs.drop s).take (e - s))

/-- String-level wrapper. -/
def extractSectionStr (s : String) (name : String) : String :=
  ⟨extract_section_content s.data name⟩

/-- Modelled from the spec words for claim C5 (refinement): the span
start comes from the first pattern in declared list order that matches
(`List.find?`); the span end is the minimum start offset among the
matches of every other section's patterns searched in the text after
the span start (`filterMap` + `foldr min`), or end-of-text when none
match; no match at all yields the empty string. -/
def extractSectionSpec (cs : List Char) (name : String) : List Char :=
  match (patternsOf name).find? (fun r => (searchML r cs).isSome) with
  | none => []
  | some r =>
    match searchML r cs with
    | none => []
    | some (_, e) =>
      let candidates := (otherPatterns name).filterMap
        (fun r2 => (searchML r2 (cs.drop e)).map (fun m => e + m.1))
      let stop := candidates.foldr min cs.length
      pyStrip ((cs.drop e).take (stop - e))

/-! ### `QualityAnalyzer` -/

/-- Substring containment (Python `needle in haystack`). -/
def containsSub (needle hay : List Char) : Bool :=
  match hay with
  | [] => needle.isEmpty
  | _ :: rest => needle.isPrefixOf hay || containsSub needle rest

/-- `QualityAnalyzer.WEAK_VERBS` (a Python set literal; the model fixes
the source-listing order — no claim depends on iteration order). -/
def WEAK_VERBS : List String :=
  ["was", "were", "is", "are", "been", "be", "being",
   "had", "has", "have", "having",
   "responsible for", "tasked with", "worked on", "involved in",
   "helped", "assisted", "participated"]

/-- `QualityAnalyzer.STRONG_ACTION_VERBS`. -/
def STRONG_ACTION_VERBS : List String :=
  ["achieved", "accelerated", "accomplished", "delivered", "designed",
   "developed", "directed", "engineered", "established", "executed",
   "generated", "implemented", "improved", "increased", "initiated",
   "launched", "led", "managed", "optimized", "orchestrated",
   "pioneered", "reduced", "resolved", "spearheaded", "streamlined",
   "transformed", "built", "created", "drove", "enhanced"]

/-- `QualityAnalyzer.FILLER_WORDS`. -/
def FILLER_WORDS : List String :=
  ["very", "really", "just", "actually", "basically", "literally",
   "obviously", "clearly", "simply", "extremely", "quite", "rather"]

/-- Sentence statistics are produced by the external sentence
segmenter (spaCy); they flow to the output unchanged and are never read
by the scorer or the recommendation engine. -/
structure SentenceStats where
  sentence_count : Nat
  avg_sentence_length : ℚ
  long_sentences_count : Nat
  has_long_sentences : Bool
deriving DecidableEq, Repr

/-- The external linguistic capability (spaCy `en_core_web_sm`):
passive-voice detection via dependency parse, and sentence
segmentation.  Modelled as an oracle; the analyzer only consumes its
outputs. -/
structure LingOracle where
  passiveVerbs : String → List String
  sentenceStats : String → SentenceStats

/-- Result record of `QualityAnalyzer.analyze_verbs`. -/
structure VerbAnalysis where
  passive_verbs : List String
  passive_count : Nat
  weak_verbs : List String
  weak_count : Nat
  strong_verbs : List String
  strong_count : Nat
deriving DecidableEq, Repr

/-- `QualityAnalyzer.analyze_verbs`: passive verbs from the parse of
the lowercased text (count over raw occurrences); weak and strong
verbs by substring containment of each vocabulary term in the
lowercased text, counted over distinct matched terms. -/
def analyze_verbs (o : LingOracle) (text : String) : VerbAnalysis :=
  let lower := pyLower text.data
  let passive := o.passiveVerbs ⟨lower⟩
  let weak := WEAK_VERBS.filter (fun v => containsSub v.data lower)
  let strong := STRONG_ACTION_VERBS.filter (fun v => containsSub v.data lower)
  { passive_verbs := passive
    passive_count := passive.length
    weak_verbs := weak
    weak_count := weak.length
    strong_verbs := strong
    strong_count := strong.length }

/-- The 8 `metrics_patterns` of
`QualityAnalyzer.detect_quantifiable_achievements`, compiled (searched
with `re.IGNORECASE`). -/
def metricsPatterns : List RE :=
  [ seqList [.plus isDigitChar, .cls (fun c => c = '%')],
    seqList [.cls (fun c => c = '$'), .plus isDigitChar,
             .opt (.cls (fun c => ciEq c 'k' || ciEq c 'm' || ciEq c 'b'))],
    seqList [.plus isDigitChar, .opt (.cls (fun c => c = '+')), wsStar,
             altList [litCI "million", litCI "thousand", litCI "billion",
                      litCI "users", litCI "customers", litCI "clients"]],
    seqList [altList [litCI "increased", litCI "decreased", litCI "improved",
                      litCI "reduced", litCI "grew", litCI "saved"],
             wsPlus, .opt (seqList [litCI "by", wsPlus]), .plus isDigitChar],
    seqList [.plus isDigitChar, .cls (fun c => ciEq c 'x')],
    seqList [litCI "top", wsPlus, .plus isDigitChar],
    seqList [.cls (fun c => c = '#'), .plus isDigitChar],
    seqList [.plus isDigitChar, wsPlus,
             altList [litCI "people", litCI "members", litCI "engineers",
                      litCI "developers", litCI "employees"]] ]

/-- Result record of `detect_quantifiable_achievements`. -/
structure MetricsInfo where
  has_metrics : Bool
  metrics_count : Nat
  metrics_examples : List String
deriving DecidableEq, Repr

/-- `QualityAnalyzer.detect_quantifiable_achievements`: union of the
findall matches of the 8 patterns, with count and first 5 examples. -/
def detect_quantifiable_achievements (text : String) : MetricsInfo :=
  let found := metricsPatterns.flatMap (fun r => findallStr r text)
  { has_metrics := decide (found.length > 0)
    metrics_count := found.length
    metrics_examples := found.take 5 }

/-- The three `bullet_patterns` of `analyze_bullet_points`
(`^\s*[•\-\*]\s*.+`, `^\s*\d+\.\s+.+`, `^\s*[a-z]\)\s+.+`), compiled.
`.` is any non-newline character (no `DOTALL`). -/
def bulletPatterns : List RE :=
  [ seqList [wsStar, .cls (fun c => c = '•' || c = '-' || c = '*'), wsStar,
             .plus (fun c => c ≠ '\n')],
    seqList [wsStar, .plus isDigitChar, .cls (fun c => c = '.'), wsPlus,
             .plus (fun c => c ≠ '\n')],
    seqList [wsStar, .cls (fun c => 'a' ≤ c && c ≤ 'z'),
             .cls (fun c => c = ')'), wsPlus, .plus (fun c => c ≠ '\n')] ]

/-- Multi-line anchored findall: repeated `searchML` (the `^` of the
bullet patterns under `re.MULTILINE`) advancing past each match. -/
def findallMLAux (r : RE) : Option Char → List Char → Nat → List (List Char)
  | _, _, 0 => []
  | prev, cs, fuel + 1 =>
    match searchMLFrom r prev cs 0 with
    | none => []
    | some (i, e) =>
      let matched := (cs.drop i).take (e - i)
      if e ≤ i then
        matched :: findallMLAux r (cs[i]?) (cs.drop (i + 1)) fuel
      else
        matched :: findallMLAux r (cs[e - 1]?) (cs.drop e) fuel

/-- Multi-line findall over a whole string. -/
def findallML (r : RE) (cs : List Char) : List (List Char) :=
  findallMLAux r none cs (cs.length + 1)

/-- Split on a single character, keeping empty pieces (Python
`text.split('\n')`). -/
def splitOnChar (sep : Char) : List Char → List (List Char)
  | [] => [[]]
  | c :: cs =>
    match splitOnChar sep cs with
    | [] => [[c]]
    | w :: rest => if c = sep then [] :: w :: rest else (c :: w) :: rest

/-- Whitespace split dropping empty pieces (Python `text.split()`):
`collapseWs` turns every whitespace run into a single space, so
splitting on spaces and dropping empties yields the token list. -/
def pySplit (l : List Char) : List (List Char) :=
  (splitOnChar ' ' (collapseWs l)).filter (fun w => !w.isEmpty)

/-- Python `re.match(p, s)`: does `p` match at position 0 of `s`? -/
def matchesAtStart (r : RE) (cs : List Char) : Bool :=
  !(matchLens r none cs).isEmpty

/-- Result record of `analyze_bullet_points`. -/
structure BulletsInfo where
  bullet_count : Nat
  has_bullets : Bool
  avg_bullet_length : ℚ
  optimal_length : Bool
deriving DecidableEq, Repr

/-- `QualityAnalyzer.analyze_bullet_points`: count the multi-line
matches of the three bullet patterns; average token length over the
lines whose stripped form matches one of the patterns (0 if none);
optimal iff the average is in [10, 20]. -/
def analyze_bullet_points (text : String) : BulletsInfo :=
  let bullets := bulletPatterns.flatMap (fun r => findallML r text.data)
  let lines := splitOnChar '\n' text.data
  let bulletLines := lines.filter
    (fun line => bulletPatterns.any (fun p => matchesAtStart p (pyStrip line)))
  let avg : ℚ :=
    if bulletLines.length = 0 then 0
    else ((bulletLines.map (fun line => ((pySplit line).length : ℚ))).sum) /
      (bulletLines.length : ℚ)
  { bullet_count := bullets.length
    has_bullets := decide (bullets.length > 0)
    avg_bullet_length := avg
    optimal_length := decide (10 ≤ avg ∧ avg ≤ 20) }

/-- Result record of `check_filler_words`. -/
structure FillersInfo where
  filler_count : Nat
  filler_words : List String
  has_too_many : Bool
deriving DecidableEq, Repr

/-- First-occurrence deduplication (Python `list(set(..))`; set order
is unspecified, the model keeps first occurrences). -/
def dedupFirst : List String → List String
  | [] => []
  | s :: rest => s :: (dedupFirst rest).filter (fun t => t ≠ s)

/-- `QualityAnalyzer.check_filler_words`: lowercase token membership in
the filler vocabulary; the count is over occurrences, the word list
deduplicated; too many iff count > 5. -/
def check_filler_words (text : String) : FillersInfo :=
  let words := pySplit (pyLower text.data)
  let found := words.filter (fun w => FILLER_WORDS.any (fun f => f.data = w))
  { filler_count := found.length
    filler_words := dedupFirst (found.map (fun w => ⟨w⟩))
    has_too_many := decide (found.length > 5) }

/-! ### `FormatAnalyzer` -/

/-- Result record of `analyze_length`. -/
structure LengthInfo where
  word_count : Nat
  char_count : Nat
  estimated_pages : ℚ
  is_too_long : Bool
  is_too_short : Bool
  optimal : Bool
deriving DecidableEq, Repr

/-- `FormatAnalyzer.analyze_length`: word count by whitespace split,
character count, pages = words/500, too long > 1000, too short < 200,
optimal 300–800. -/
def analyze_length (text : String) : LengthInfo :=
  let wc := (pySplit text.data).length
  { word_count := wc
    char_count := text.data.length
    estimated_pages := (wc : ℚ) / 500
    is_too_long := decide (wc > 1000)
    is_too_short := decide (wc < 200)
    optimal := decide (300 ≤ wc ∧ wc ≤ 800) }

/-- Result record of `check_formatting_issues`. -/
structure FormattingIssues where
  issues : List String
  has_issues : Bool
  caps_ratio : ℚ
deriving DecidableEq, Repr

/-- The `date_patterns` of `check_formatting_issues`, compiled
(searched with `re.IGNORECASE`). -/
def datePatterns : List RE :=
  [ seqList [.reps isDigitChar 4 4, wsStar, .cls (fun c => c = '-'), wsStar,
             .reps isDigitChar 4 4],
    seqList [.reps isDigitChar 4 4, wsStar, .cls (fun c => c = '-'), wsStar,
             .alt (litCI "present") (litCI "current")],
    seqList [altList [litCI "jan", litCI "feb", litCI "mar", litCI "apr",
                      litCI "may", litCI "jun", litCI "jul", litCI "aug",
                      litCI "sep", litCI "oct", litCI "nov", litCI "dec"],
             .star isAsciiLetter,
             wsPlus, .reps isDigitChar 4 4] ]

/-- Issue string for a missing early line break. -/
def structureIssue : String := "Manque de structure/paragraphes"

/-- `FormatAnalyzer.check_formatting_issues`: the four checks, in
source order — excessive capitals (> 30 % uppercase), a run of ≥ 3
whitespace characters, no newline within the first 200 characters, no
recognizable date pattern anywhere. -/
def check_formatting_issues (text : String) : FormattingIssues :=
  let cs := text.data
  let capsRatio : ℚ :=
    if cs.length = 0 then 0
    else ((cs.filter Char.isUpper).length : ℚ) / (cs.length : ℚ)
  let issues :=
    (if capsRatio > 3 / 10 then ["Trop de texte en MAJUSCULES"] else []) ++
    (if searchSome (.reps isPyWs 3 3) cs then ["Espaces multiples détectés"] else []) ++
    (if ¬ (cs.take 200).contains '\n' then [structureIssue] else []) ++
    (if datePatterns.any (fun r => searchSome r cs) then []
     else ["Dates d\x27expérience manquantes ou mal formatées"])
  { issues := issues
    has_issues := decide (issues.length > 0)
    caps_ratio := capsRatio }

/-- One parsed experience range. -/
structure ExperienceRange where
  start : String
  stop : String
  duration_years : Int
deriving DecidableEq, Repr

/-- Result record of `extract_experience_duration`. -/
structure DurationInfo where
  total_experience_years : Int
  number_of_positions : Nat
  experiences : List ExperienceRange
deriving DecidableEq, Repr

/-- Numeric value of a digit string (Python `int`). -/
def digitsToNat (l : List Char) : Nat :=
  l.foldl (fun acc c => acc * 10 + (c.toNat - '0'.toNat)) 0

/-- Case-insensitive literal prefix test. -/
def ciPrefix (w : List Char) (cs : List Char) : Bool :=
  match w, cs with
  | [], _ => true
  | _ :: _, [] => false
  | a :: w2, b :: cs2 => ciEq a b && ciPrefix w2 cs2

/-- Scanner for `re.findall(r'(\d{4})\s*-\s*(?:(\d{4})|(?:present|current))',
text, re.IGNORECASE)`: the group pairs (end group empty when the match
hit `present`/`current`), scanning leftmost and non-overlapping.
`matchEndTail` gives the input remaining after the match. -/
def dateRangeAt (cs : List Char) : Option (List Char × List Char × List Char) :=
  match cs with
  | a :: b :: c :: d :: rest =>
    if isDigitChar a && isDigitChar b && isDigitChar c && isDigitChar d then
      let afterWs := rest.dropWhile isPyWs
      match afterWs with
      | '-' :: rest2 =>
        let rest3 := rest2.dropWhile isPyWs
        match rest3 with
        | e :: f :: g :: h :: rest4 =>
          if isDigitChar e && isDigitChar f && isDigitChar g && isDigitChar h then
            some ([a, b, c, d], [e, f, g, h], rest4)
          else if ciPrefix "present".data rest3 then
            some ([a, b, c, d], [], rest3.drop 7)
          else if ciPrefix "current".data rest3 then
            some ([a, b, c, d], [], rest3.drop 7)
          else none
        | _ =>
          if ciPrefix "present".data rest3 then
            some ([a, b, c, d], [], rest3.drop 7)
          else if ciPrefix "current".data rest3 then
            some ([a, b, c, d], [], rest3.drop 7)
          else none
      | _ => none
    else none
  | _ => none

/-- Leftmost non-overlapping scan for date ranges. -/
def findDateRanges : List Char → Nat → List (List Char × List Char)
  | _, 0 => []
  | cs, fuel + 1 =>
    match cs with
    | [] => []
    | _ :: tail =>
      match dateRangeAt cs with
      | some (s, e, rest) => (s, e) :: findDateRanges rest fuel
      | none => findDateRanges tail fuel

/-- `FormatAnalyzer.extract_experience_duration`: for each
`YYYY - (YYYY|present|current)` range, the end year defaults to the
current calendar year (`datetime.now().year`, passed in as `year`);
duration = end − start; total is the sum. -/
def extract_experience_duration (year : Int) (text : String) : DurationInfo :=
  let ranges := findDateRanges text.data (text.data.length + 1)
  let experiences := ranges.map fun (s, e) =>
    let endYear : Int := if e.isEmpty then year else (digitsToNat e : Int)
    { start := ⟨s⟩
      stop := if e.isEmpty then "Present" else ⟨e⟩
      duration_years := endYear - (digitsToNat s : Int) : ExperienceRange }
  { total_experience_years := (experiences.map (·.duration_years)).sum
    number_of_positions := experiences.length
    experiences := experiences }

/-! ### `ContactExtractor` -/

/-- Email pattern
`\b[A-Za-z0-9._%+-]+@[A-Za-z0-9.-]+\.[A-Z|a-z]{2,}\b`, compiled.
Note the source's TLD class `[A-Z|a-z]` literally includes `|`. -/
def emailRE : RE :=
  seqList [.wordB,
           .plus (fun c => c.isAlphanum || c = '.' || c = '_' || c = '%' ||
                           c = '+' || c = '-'),
    .cls (fun c => c = '@'),
    .plus (fun c => c.isAlphanum || c = '.' || c = '-'),
    .cls (fun c => c = '.'),
    .reps (fun c => isAsciiLetter c || c = '|') 2 1000000,
    .wordB]

/-- `ContactExtractor.extract_email`. -/
def extract_email (text : String) : List String :=
  findallStr emailRE text

/-- The three phone patterns of `ContactExtractor.extract_phone`,
compiled. -/
def phonePatterns : List RE :=
  [ seqList [.opt (.cls (fun c => c = '+')), .reps isDigitChar 1 4,
             .opt (.cls (fun c => c = '-' || c = '.' || isPyWs c)),
             .opt (.cls (fun c => c = '(')), .reps isDigitChar 1 3,
             .opt (.cls (fun c => c = ')')),
             .opt (.cls (fun c => c = '-' || c = '.' || isPyWs c)),
             .reps isDigitChar 1 4,
             .opt (.cls (fun c => c = '-' || c = '.' || isPyWs c)),
             .reps isDigitChar 1 4,
             .opt (.cls (fun c => c = '-' || c = '.' || isPyWs c)),
             .reps isDigitChar 1 9],
    seqList [.cls (fun c => c = '('), .reps isDigitChar 3 3,
             .cls (fun c => c = ')'), wsStar, .reps isDigitChar 3 3,
             .cls (fun c => c = '-'), .reps isDigitChar 4 4],
    seqList [.reps isDigitChar 3 3, .cls (fun c => c = '-'),
             .reps isDigitChar 3 3, .cls (fun c => c = '-'),
             .reps isDigitChar 4 4] ]

/-- `ContactExtractor.extract_phone`: union of the three patterns,
deduplicated (`list(set(..))`; the model keeps first occurrences). -/
def extract_phone (text : String) : List String :=
  dedupFirst (phonePatterns.flatMap (fun r => findallStr r text))

/-- LinkedIn pattern
`(?:https?://)?(?:www\.)?linkedin\.com/in/[\w\-]+` (IGNORECASE). -/
def linkedinRE : RE :=
  seqList [.opt (seqList [litCI "http", .opt (litCI "s"), litCI "://"]),
           .opt (litCI "www."),
           litCI "linkedin.com/in/",
           .plus (fun c => isWordChar c || c = '-')]

/-- `ContactExtractor.extract_linkedin`. -/
def extract_linkedin (text : String) : List String :=
  findallStr linkedinRE text

/-- GitHub pattern `(?:https?://)?(?:www\.)?github\.com/[\w\-]+`
(IGNORECASE). -/
def githubRE : RE :=
  seqList [.opt (seqList [litCI "http", .opt (litCI "s"), litCI "://"]),
           .opt (litCI "www."),
           litCI "github.com/",
           .plus (fun c => isWordChar c || c = '-')]

/-- `ContactExtractor.extract_github`. -/
def extract_github (text : String) : List String :=
  findallStr githubRE text

/-- `COUNTRIES` gazetteer of `extract_location` (a Python set literal;
the model fixes the source-listing order). -/
def COUNTRIES : List String :=
  ["tunisia", "tunisie", "morocco", "maroc", "algeria", "algérie",
   "egypt", "égypte", "libya", "libye", "mauritania", "mauritanie",
   "lebanon", "liban", "jordan", "jordanie", "syria", "syrie", "iraq",
   "irak", "saudi arabia", "arabie saoudite", "uae", "emirates",
   "kuwait", "koweït", "qatar", "oman", "bahrain", "bahrein", "yemen",
   "yémen", "palestine", "israel", "israël",
   "nigeria", "nigéria", "ethiopia", "éthiopie", "kenya", "ghana",
   "tanzania", "tanzanie", "uganda", "ouganda", "south africa",
   "afrique du sud", "senegal", "sénégal", "ivory coast",
   "côte d\x27ivoire", "cameroon", "cameroun", "madagascar", "mali",
   "burkina faso", "niger", "rwanda", "somalia", "somalie", "zimbabwe",
   "zambia", "zambie", "mozambique", "botswana", "namibia", "namibie",
   "gabon", "angola", "congo", "democratic republic of congo", "rdc",
   "benin", "bénin", "togo", "chad", "tchad",
   "france", "canada", "usa", "united states", "états-unis", "uk",
   "united kingdom", "royaume-uni", "germany", "allemagne", "spain",
   "espagne", "italy", "italie", "belgium", "belgique", "switzerland",
   "suisse", "netherlands", "pays-bas"]

/-- `MAJOR_CITIES` gazetteer of `extract_location`. -/
def MAJOR_CITIES : List String :=
  ["tunis", "sfax", "sousse", "bizerte", "kairouan", "gabès", "ariana",
   "casablanca", "rabat", "fès", "marrakech", "agadir", "tanger",
   "meknès", "algiers", "alger", "oran", "constantine", "annaba",
   "blida", "cairo", "le caire", "alexandria", "alexandrie", "giza",
   "shubra el-kheima", "lagos", "abuja", "kano", "ibadan",
   "port harcourt", "nairobi", "mombasa", "kisumu", "nakuru",
   "johannesburg", "cape town", "le cap", "durban", "pretoria",
   "accra", "kumasi", "tamale", "takoradi", "dakar", "touba", "thiès",
   "saint-louis", "yaoundé", "douala", "garoua", "bamenda",
   "addis ababa", "dire dawa", "mekelle", "dar es salaam", "dodoma",
   "mwanza", "arusha", "kampala", "gulu", "lira", "mbarara"]

/-- Character class of the first capture group of location pattern 1:
`[a-zàâäéèêëïîôùûü\s\-\'\.]` (no IGNORECASE on this pattern). -/
def locCls1 (c : Char) : Bool :=
  ('a' ≤ c && c ≤ 'z') ||
  c = 'à' || c = 'â' || c = 'ä' || c = 'é' || c = 'è' || c = 'ê' ||
  c = 'ë' || c = 'ï' || c = 'î' || c = 'ô' || c = 'ù' || c = 'û' ||
  c = 'ü' || isPyWs c || c = '-' || c = '\x27' || c = '.'

/-- Character class of the second capture group:
`[a-zàâäéèêëïîôùûü\s]`. -/
def locCls2 (c : Char) : Bool :=
  ('a' ≤ c && c ≤ 'z') ||
  c = 'à' || c = 'â' || c = 'ä' || c = 'é' || c = 'è' || c = 'ê' ||
  c = 'ë' || c = 'ï' || c = 'î' || c = 'ô' || c = 'ù' || c = 'û' ||
  c = 'ü' || isPyWs c

/-- ASCII uppercase, the `[A-Z]` of location pattern 1. -/
def isUpperAZ (c : Char) : Bool :=
  'A' ≤ c && c ≤ 'Z'

/-- Try to finish a location-pattern-1 match whose first group took
`g1` characters after the leading capital: needs `[,\-]`, then `\s*`,
then `[A-Z][a-zàâäéèêëïîôùûü\s]+` (greedy).  Returns the second group
and the input remaining after the match. -/
def locTailAt (cs : List Char) : Option (List Char × List Char) :=
  match cs with
  | sep :: rest =>
    if sep = ',' || sep = '-' then
      let rest2 := rest.dropWhile isPyWs
      match rest2 with
      | u :: rest3 =>
        if isUpperAZ u then
          let run := rest3.takeWhile locCls2
          if run.isEmpty then none
          else some (u :: run, rest3.drop run.length)
        else none
      | [] => none
    else none
  | [] => none

/-- Backtracking over the greedy first group: try group-1 lengths from
longest to shortest (Python greedy `+`), returning the two capture
groups and the remaining input. -/
def locTryLens (first : Char) (cs : List Char) :
    Nat → Option (List Char × List Char × List Char)
  | 0 => none
  | n + 1 =>
    match locTailAt (cs.drop (n + 1)) with
    | some (g2, rest) => some (first :: cs.take (n + 1), g2, rest)
    | none => locTryLens first cs n

/-- Scanner for
`re.findall(r'([A-Z][a-zàâäéèêëïîôùûü\s\-\'\.]+)[,\-]\s*([A-Z][a-zàâäéèêëïîôùûü\s]+)', text)`:
leftmost non-overlapping matches as (group 1, group 2) pairs. -/
def findLocPairs : List Char → Nat → List (List Char × List Char)
  | _, 0 => []
  | cs, fuel + 1 =>
    match cs with
    | [] => []
    | c :: tail =>
      if isUpperAZ c then
        let run := tail.takeWhile locCls1
        match locTryLens c tail run.length with
        | some (g1, g2, rest) => (g1, g2) :: findLocPairs rest fuel
        | none => findLocPairs tail fuel
      else findLocPairs tail fuel

/-- Case-insensitive whole-word occurrence
(`re.search(r'\b' + re.escape(w) + r'\b', text, re.IGNORECASE)`): the
literal must occur with a word/non-word boundary on each side. -/
def wholeWordCI (w : List Char) (text : List Char) : Bool :=
  match w with
  | [] => true
  | first :: wrest =>
    wwGo (first :: wrest) first ((first :: wrest).getLast (by simp)) none text
where
  /-- Scan every position, checking a case-insensitive literal match
  with `\b` on both sides. -/
  wwGo (w : List Char) (first lastChar : Char) (prev : Option Char)
      (cs : List Char) : Bool :=
    (ciPrefix w cs &&
      (isWordOpt prev != isWordChar first) &&
      (isWordOpt (cs.drop w.length).head? != isWordChar lastChar)) ||
    (match cs with
     | [] => false
     | c :: rest => wwGo w first lastChar (some c) rest)

/-- Python `str.title()`: uppercase every character that follows a
non-alphabetic character, lowercase the rest (ASCII fold). -/
def pyTitle (l : List Char) : List Char :=
  (l.foldl
    (fun (acc : List Char × Bool) c =>
      if c.isAlpha then
        ((if acc.2 then c.toLower else c.toUpper) :: acc.1, true)
      else (c :: acc.1, false))
    ([], false)).1.reverse

/-- The `locations_found` list built by `extract_location`: pass 1 —
`City, Country` pairs whose second component is in the country
gazetteer; pass 2 — whole-word city-gazetteer matches (title-cased,
deduplicated against the cities found so far); pass 3 — whole-word bare
country matches (title-cased, deduplicated against the countries found
so far). -/
def locationsFound (text : String) : List (List Char) :=
  let cs := text.data
  let pairs := findLocPairs cs (cs.length + 1)
  let pass1 := pairs.filterMap fun (g1, g2) =>
    let city := pyStrip g1
    let country := pyStrip g2
    if COUNTRIES.any (fun k => k.data = pyLower country) then
      some (city ++ (", ".data) ++ country, city, country)
    else none
  let locations1 := pass1.map (·.1)
  let cities1 := pass1.map (·.2.1)
  let countries1 := pass1.map (·.2.2)
  let pass2 := (MAJOR_CITIES.filter (fun city => wholeWordCI city.data cs)).foldl
    (fun (acc : List (List Char) × List (List Char)) city =>
      let ct := pyTitle city.data
      if acc.2.any (fun c => c = ct) then acc
      else (acc.1 ++ [ct], acc.2 ++ [ct]))
    (locations1, cities1)
  let locations2 := pass2.1
  let pass3 := (COUNTRIES.filter (fun k => wholeWordCI k.data cs)).foldl
    (fun (acc : List (List Char) × List (List Char)) k =>
      let ct := pyTitle k.data
      if acc.2.any (fun c => c = ct) then acc
      else (acc.1 ++ [ct], acc.2 ++ [ct]))
    (locations2, countries1)
  pass3.1

/-- `ContactExtractor.extract_location`: the first location found by
pass order, stripped, or the empty string when no pass finds
anything. -/
def extract_location (text : String) : String :=
  match locationsFound text with
  | [] => ""
  | l :: _ => ⟨pyStrip l⟩

/-- The contact-information record built by `extract_all_contacts`. -/
structure Contacts where
  emails : List String
  phones : List String
  location : String
  linkedin : List String
  github : List String
deriving DecidableEq, Repr

/-- `ContactExtractor.extract_all_contacts`. -/
def extract_all_contacts (text : String) : Contacts :=
  { emails := extract_email text
    phones := extract_phone text
    location := extract_location text
    linkedin := extract_linkedin text
    github := extract_github text }

/-! ### `ResumeScorer` -/

/-- The `format` entry of the assembled analysis dict:
`{**length_analysis, 'formatting_issues': formatting_issues}`. -/
structure FormatInfo extends LengthInfo where
  formatting_issues : FormattingIssues
deriving DecidableEq, Repr

/-- The assembled `analysis_results` dict of
`ResumeAnalyzer.analyze_resume`: what the scorer and the recommendation
engine consume. -/
structure AnalysisResults where
  raw_text : String
  clean_text : String
  contacts : Contacts
  sections : List (String × Bool)
  verb_analysis : VerbAnalysis
  metrics : MetricsInfo
  bullets : BulletsInfo
  fillers : FillersInfo
  sentence_structure : SentenceStats
  format : FormatInfo
  experience_duration : DurationInfo
deriving DecidableEq, Repr

/-- The 7-category score breakdown, in source insertion order. -/
structure Breakdown where
  contact_info : Int
  sections : Int
  verb_quality : Int
  quantifiable_achievements : Int
  format : Int
  bullet_points : Int
  language_quality : Int
deriving DecidableEq, Repr

/-- Score result of `ResumeScorer.calculate_score`. -/
structure ScoreResult where
  total_score : Int
  level : String
  breakdown : Breakdown
deriving DecidableEq, Repr

/-- Qualitative level from the final score (the source's labels are
French: `Bon` is the level the specification calls Good, `Moyen`
Average, `À améliorer` Needs-improvement). -/
def levelOfScore (s : Int) : String :=
  if s ≥ 80 then "Excellent"
  else if s ≥ 60 then "Bon"
  else if s ≥ 40 then "Moyen"
  else "À améliorer"

/-- `ResumeScorer.calculate_score`: the deterministic weighted sum over
the 7 categories, final total clamped to [0, 100]. -/
def calculate_score (a : AnalysisResults) : ScoreResult :=
  let contact_score : Int :=
    (if a.contacts.emails ≠ [] then 3 else 0) +
    (if a.contacts.phones ≠ [] then 2 else 0) +
    (if a.contacts.linkedin ≠ [] then 3 else 0) +
    (if a.contacts.github ≠ [] then 2 else 0) +
    (if a.contacts.location ≠ "" then 2 else 0)
  let section_score : Int :=
    min (3 * ((a.sections.filter (fun q => q.2)).length : Int)) 15
  let verb_score : Int :=
    max 0 (- min (a.verb_analysis.passive_count * 2 : Int) 10
           - min (a.verb_analysis.weak_count : Int) 5
           + min (a.verb_analysis.strong_count * 2 : Int) 15)
  let metrics_score : Int :=
    if a.metrics.has_metrics then min (a.metrics.metrics_count * 4 : Int) 20
    else 0
  let format_score : Int :=
    max 0 (15 - (if a.format.is_too_long || a.format.is_too_short then 5 else 0)
              - (if a.format.formatting_issues.has_issues then 3 else 0))
  let bullet_score : Int :=
    (if a.bullets.has_bullets then 5 else 0) +
    (if a.bullets.optimal_length then 5 else 0)
  let filler_score : Int := 10 - min (a.fillers.filler_count : Int) 10
  let score := contact_score + section_score + verb_score + metrics_score +
    format_score + bullet_score + filler_score
  let final := min 100 (max 0 score)
  { total_score := final
    level := levelOfScore final
    breakdown :=
      { contact_info := contact_score
        sections := section_score
        verb_quality := verb_score
        quantifiable_achievements := metrics_score
        format := format_score
        bullet_points := bullet_score
        language_quality := filler_score } }

/-! ### `RecommendationEngine` -/

/-- A recommendation entry; `examples` is `none` when the source dict
has no `examples` key. -/
structure Rec where
  priority : String
  category : String
  issue : String
  recommendation : String
  examples : Option (List String)
deriving DecidableEq, Repr

/-- The priority rank used for the final sort
(`{'HIGH': 0, 'MEDIUM': 1, 'LOW': 2}`; the engine only ever generates
these three priorities — any other key would raise in the source, the
model maps it after the known ones). -/
def priorityRank (p : String) : Nat :=
  if p = "HIGH" then 0 else if p = "MEDIUM" then 1
  else if p = "LOW" then 2 else 3

/-- The missing-email recommendation, the first the engine can emit. -/
def emailRec : Rec :=
  { priority := "HIGH", category := "Contact", issue := "Email manquant"
    recommendation :=
      "Ajoutez une adresse email professionnelle visible en haut du CV"
    examples := none }

/-- The excessive-fillers recommendation (the engine's only LOW one). -/
def fillerRec (a : AnalysisResults) : Rec :=
  { priority := "LOW", category := "Style"
    issue := "Mots de remplissage excessifs"
    recommendation := "Supprimez les mots inutiles: " ++
      String.intercalate ", " (a.fillers.filler_words.take 5)
    examples := none }

/-- The unsorted recommendation list, each rule firing independently in
source order. -/
def genRecommendations (a : AnalysisResults) : List Rec :=
  (if a.contacts.emails = [] then [emailRec] else []) ++
  (if a.contacts.linkedin = [] then
    [{ priority := "MEDIUM", category := "Contact"
       issue := "Profil LinkedIn manquant"
       recommendation :=
         "Ajoutez votre profil LinkedIn pour augmenter votre visibilité"
       examples := none }] else []) ++
  (["experience", "education", "skills"].filterMap fun sec =>
    if sectionPresent a.sections sec then none
    else some
      { priority := "HIGH", category := "Structure"
        issue := "Section " ++ sec ++ " manquante"
        recommendation := "Ajoutez une section claire pour " ++ sec
        examples := none }) ++
  (if a.verb_analysis.passive_count > 3 then
    [{ priority := "HIGH", category := "Contenu"
       issue := toString a.verb_analysis.passive_count ++
         " verbes passifs détectés"
       recommendation := "Remplacez les verbes passifs par des verbes " ++
         "d\x27action (ex: \"Managed\" au lieu de \"Was responsible for\")"
       examples := some (a.verb_analysis.passive_verbs.take 3) }] else []) ++
  (if a.verb_analysis.strong_count < 5 then
    [{ priority := "MEDIUM", category := "Contenu"
       issue := "Peu de verbes d\x27action forts"
       recommendation := "Utilisez plus de verbes d\x27action impactants: " ++
         "achieved, implemented, led, optimized, etc."
       examples := none }] else []) ++
  (if ¬ a.metrics.has_metrics ∨ a.metrics.metrics_count < 3 then
    [{ priority := "HIGH", category := "Impact"
       issue := "Manque de résultats quantifiables"
       recommendation := "Ajoutez des chiffres concrets: pourcentages, " ++
         "montants, nombre de projets/personnes, délais, etc."
       examples := none }] else []) ++
  (if a.format.is_too_long then
    [{ priority := "MEDIUM", category := "Format", issue := "CV trop long"
       recommendation := "Réduisez la longueur à 1-2 pages (" ++
         toString a.format.word_count ++ " mots actuellement)"
       examples := none }] else []) ++
  (if a.fillers.has_too_many then [fillerRec a] else []) ++
  (if ¬ a.bullets.has_bullets then
    [{ priority := "MEDIUM", category := "Format"
       issue := "Manque de bullet points"
       recommendation := "Utilisez des bullet points pour lister vos " ++
         "réalisations de manière claire"
       examples := none }] else [])

/-- The final stable sort by priority rank.  Python's Timsort is
stable, and a stable sort by a key taking the values 0, 1, 2 (3) is
extensionally the concatenation of the rank buckets in original
order. -/
def sortRecs (l : List Rec) : List Rec :=
  l.filter (fun r => priorityRank r.priority = 0) ++
  l.filter (fun r => priorityRank r.priority = 1) ++
  l.filter (fun r => priorityRank r.priority = 2) ++
  l.filter (fun r => 3 ≤ priorityRank r.priority)

/-- `RecommendationEngine.generate_recommendations`. -/
def generate_recommendations (a : AnalysisResults) : List Rec :=
  sortRecs (genRecommendations a)

/-! ### `ResumeAnalyzer` (orchestrator) and `ResumeAnalyzerAPI` -/

/-- The summary block of the orchestrator's result. -/
structure Summary where
  total_score : Int
  level : String
  critical_issues : Nat
  total_recommendations : Nat
deriving DecidableEq, Repr

/-- Full result of `ResumeAnalyzer.analyze_resume`. -/
structure FullResult where
  analysis : AnalysisResults
  score : ScoreResult
  recommendations : List Rec
  summary : Summary
deriving DecidableEq, Repr

/-- `ResumeAnalyzer.analyze_resume`, starting from the raw extracted
text (PDF extraction is an external collaborator).  `year` is
`datetime.now().year`, read by the duration extractor; `o` is the
linguistic capability.  Sections and bullets are analyzed on the raw
text, everything else on the normalized text; verb analysis runs on the
experience section's span when it is non-empty, else on the whole
normalized text. -/
def analyze_resume (o : LingOracle) (year : Int) (raw_text : String) :
    FullResult :=
  let clean := cleanText raw_text
  let contacts := extract_all_contacts clean
  let sections := detect_sections raw_text.data
  let experience_text := extractSectionStr raw_text "experience"
  let verb_analysis :=
    analyze_verbs o (if experience_text ≠ "" then experience_text else clean)
  let metrics := detect_quantifiable_achievements clean
  let bullets := analyze_bullet_points raw_text
  let fillers := check_filler_words clean
  let sentence_structure := o.sentenceStats clean
  let length_analysis := analyze_length clean
  let formatting_issues := check_formatting_issues clean
  let experience_duration := extract_experience_duration year clean
  let analysis : AnalysisResults :=
    { raw_text := raw_text
      clean_text := clean
      contacts := contacts
      sections := sections
      verb_analysis := verb_analysis
      metrics := metrics
      bullets := bullets
      fillers := fillers
      sentence_structure := sentence_structure
      format := { toLengthInfo := length_analysis
                  formatting_issues := formatting_issues }
      experience_duration := experience_duration }
  let score := calculate_score analysis
  let recommendations := generate_recommendations analysis
  { analysis := analysis
    score := score
    recommendations := recommendations
    summary :=
      { total_score := score.total_score
        level := score.level
        critical_issues :=
          (recommendations.filter (fun r => r.priority = "HIGH")).length
        total_recommendations := recommendations.length } }

/-- Result record of `ResumeAnalyzerAPI.analyze`. -/
structure ApiResult where
  success : Bool
  score : Int
  level : String
  recommendations : List Rec
  sections_missing : List String
  contact_info : Contacts
  high_priority : List Rec
  medium_priority : List Rec
  full_analysis : FullResult
deriving DecidableEq, Repr

/-- `ResumeAnalyzerAPI.analyze`: the narrow caller-facing projection of
the orchestrator result. -/
def apiAnalyze (o : LingOracle) (year : Int) (raw_text : String) : ApiResult :=
  let result := analyze_resume o year raw_text
  { success := true
    score := result.summary.total_score
    level := result.summary.level
    recommendations := result.recommendations
    sections_missing :=
      (result.analysis.sections.filter (fun q => !q.2)).map Prod.fst
    contact_info := result.analysis.contacts
    high_priority :=
      result.recommendations.filter (fun r => r.priority = "HIGH")
    medium_priority :=
      result.recommendations.filter (fun r => r.priority = "MEDIUM")
    full_analysis := result }

/-- One entry of `get_text_to_improve`'s result. -/
structure ImproveItem where
  section_name : String
  text : String
  issues : List String
  weak_verbs : List String
  passive_verbs : List String
deriving DecidableEq, Repr

/-- `ResumeAnalyzerAPI.get_text_to_improve`: re-runs the analysis, then
extracts the experience section *from the normalized text* and returns
it (with its weak/passive verbs) when it is non-empty and the verb
analysis found weak verbs; otherwise the empty list. -/
def get_text_to_improve (o : LingOracle) (year : Int) (raw_text : String) :
    List ImproveItem :=
  let result := analyze_resume o year raw_text
  let analysis := result.analysis
  let experience_text := extractSectionStr analysis.clean_text "experience"
  if experience_text ≠ "" ∧ analysis.verb_analysis.weak_count > 0 then
    [{ section_name := "experience"
       text := experience_text
       issues :=
         ["Remplacer les verbes passifs et faibles par des verbes d\x27action",
          "Ajouter des résultats quantifiables"]
       weak_verbs := analysis.verb_analysis.weak_verbs
       passive_verbs := analysis.verb_analysis.passive_verbs }]
  else []

/-- The analyzer object's process-wide environment: the loaded
linguistic capability and the clock year, read-only after startup.
Threading it explicitly makes the statelessness of `analyze`
provable. -/
structure AnalyzerState where
  oracle : LingOracle
  year : Int

/-- `ResumeAnalyzerAPI.analyze` as a state-threading function: it reads
the shared environment and leaves it untouched. -/
def analyzeStateful (st : AnalyzerState) (raw_text : String) :
    ApiResult × AnalyzerState :=
  (apiAnalyze st.oracle st.year raw_text, st)

/-! ## Theorems for the specification claims -/

/-- Helper: the final total is clamped to [0, 100] by construction. -/
theorem total_score_in_range (a : AnalysisResults) :
    0 ≤ (calculate_score a).total_score ∧
      (calculate_score a).total_score ≤ 100 := by
  unfold calculate_score
  dsimp only
  omega

/-- Claim C1, amended: for every analysis input the total score lies in
[0, 100]; the `contact_info` contribution lies in [0, 12] — the five
contact bonuses (3 email + 2 phone + 3 LinkedIn + 2 GitHub + 2
location) can add up to 12, exceeding the declared maximum of 10 — and
the other six category contributions lie within their declared ranges:
sections [0,15], verb_quality [0,20], quantifiable_achievements [0,20],
format [0,15], bullet_points [0,10], language_quality [0,10]. -/
theorem c1_score_bounds (a : AnalysisResults) :
    0 ≤ (calculate_score a).total_score ∧
    (calculate_score a).total_score ≤ 100 ∧
    0 ≤ (calculate_score a).breakdown.contact_info ∧
    (calculate_score a).breakdown.contact_info ≤ 12 ∧
    0 ≤ (calculate_score a).breakdown.sections ∧
    (calculate_score a).breakdown.sections ≤ 15 ∧
    0 ≤ (calculate_score a).breakdown.verb_quality ∧
    (calculate_score a).breakdown.verb_quality ≤ 20 ∧
    0 ≤ (calculate_score a).breakdown.quantifiable_achievements ∧
    (calculate_score a).breakdown.quantifiable_achievements ≤ 20 ∧
    0 ≤ (calculate_score a).breakdown.format ∧
    (calculate_score a).breakdown.format ≤ 15 ∧
    0 ≤ (calculate_score a).breakdown.bullet_points ∧
    (calculate_score a).breakdown.bullet_points ≤ 10 ∧
    0 ≤ (calculate_score a).breakdown.language_quality ∧
    (calculate_score a).breakdown.language_quality ≤ 10 := by
  refine ⟨(total_score_in_range a).1, (total_score_in_range a).2, ?_⟩
  unfold calculate_score
  dsimp only
  refine ⟨?_, ?_, ?_, ?_, ?_, ?_, ?_, ?_, ?_, ?_, ?_, ?_, ?_, ?_⟩ <;>
    first
      | (split_ifs <;> omega)
      | (simp only [min_def, max_def]; split_ifs <;> omega)

/-- An analysis input with all five contact fields present (email,
phone, LinkedIn, GitHub, location) and everything else empty. -/
def allContactsInput : AnalysisResults :=
  { raw_text := ""
    clean_text := ""
    contacts :=
      { emails := ["jane@example.com"]
        phones := ["123-456-7890"]
        location := "Tunis"
        linkedin := ["linkedin.com/in/jane"]
        github := ["github.com/jane"] }
    sections := detect_sections "".data
    verb_analysis :=
      { passive_verbs := [], passive_count := 0, weak_verbs := []
        weak_count := 0, strong_verbs := [], strong_count := 0 }
    metrics := { has_metrics := false, metrics_count := 0, metrics_examples := [] }
    bullets := { bullet_count := 0, has_bullets := false
                 avg_bullet_length := 0, optimal_length := false }
    fillers := { filler_count := 0, filler_words := [], has_too_many := false }
    sentence_structure :=
      { sentence_count := 0, avg_sentence_length := 0
        long_sentences_count := 0, has_long_sentences := false }
    format :=
      { word_count := 0, char_count := 0, estimated_pages := 0
        is_too_long := false, is_too_short := true, optimal := false
        formatting_issues := { issues := [], has_issues := false, caps_ratio := 0 } }
    experience_duration :=
      { total_experience_years := 0, number_of_positions := 0, experiences := [] } }

/-- Counterexample for claim C1 as stated: with all five contact fields
present, the `contact_info` contribution is 3+2+3+2+2 = 12, which is
not within the declared [0, 10] range. -/
theorem c1_counterexample :
    (calculate_score allContactsInput).breakdown.contact_info = 12 ∧
      ¬ ((calculate_score allContactsInput).breakdown.contact_info ≤ 10) := by
  decide

/-- The analysis input of the scoring-determinism example: one email,
no phone, no network handles, no location; sections experience and
education detected, all others absent; 0 passive verbs, 0 weak verbs,
6 strong verbs; 4 quantifiable-metric matches; word count 500 with no
formatting issues; bullets present with optimal average length;
0 filler words. -/
def c2Input : AnalysisResults :=
  { raw_text := ""
    clean_text := ""
    contacts :=
      { emails := ["jane@example.com"], phones := [], location := ""
        linkedin := [], github := [] }
    sections :=
      [("experience", true), ("education", true), ("skills", false),
       ("projects", false), ("certifications", false), ("summary", false),
       ("associative", false), ("languages", false)]
    verb_analysis :=
      { passive_verbs := [], passive_count := 0, weak_verbs := []
        weak_count := 0
        strong_verbs := ["achieved", "delivered", "designed", "developed",
                         "led", "managed"]
        strong_count := 6 }
    metrics :=
      { has_metrics := true, metrics_count := 4
        metrics_examples := ["30%", "$2M", "5x", "top 10"] }
    bullets := { bullet_count := 8, has_bullets := true
                 avg_bullet_length := 12, optimal_length := true }
    fillers := { filler_count := 0, filler_words := [], has_too_many := false }
    sentence_structure :=
      { sentence_count := 0, avg_sentence_length := 0
        long_sentences_count := 0, has_long_sentences := false }
    format :=
      { word_count := 500, char_count := 3000, estimated_pages := 1
        is_too_long := false, is_too_short := false, optimal := true
        formatting_issues := { issues := [], has_issues := false, caps_ratio := 0 } }
    experience_duration :=
      { total_experience_years := 0, number_of_positions := 0, experiences := [] } }

/-- Claim C2: on the determinism-example input, `calculate_score`
returns contact = 3, sections = 6, verb = 12, metrics = 16,
format = 15, bullets = 10, language = 10, total = 72, and the ≥ 60
level — the code's label `Bon` is the level the specification calls
`Good` (the 60 ≤ s < 80 band). -/
theorem c2_determinism_example :
    (calculate_score c2Input).breakdown.contact_info = 3 ∧
    (calculate_score c2Input).breakdown.sections = 6 ∧
    (calculate_score c2Input).breakdown.verb_quality = 12 ∧
    (calculate_score c2Input).breakdown.quantifiable_achievements = 16 ∧
    (calculate_score c2Input).breakdown.format = 15 ∧
    (calculate_score c2Input).breakdown.bullet_points = 10 ∧
    (calculate_score c2Input).breakdown.language_quality = 10 ∧
    (calculate_score c2Input).total_score = 72 ∧
    (calculate_score c2Input).level = "Bon" ∧
    (calculate_score c2Input).level = levelOfScore 72 ∧
    60 ≤ (calculate_score c2Input).total_score ∧
    (calculate_score c2Input).total_score < 80 := by
  decide

/-- Counterexample for claim C4 as stated: in the document
`"associative\nexperience\nmore text"`, the sections `associative` (its
heading `associative\s+experience` spans the newline) and `experience`
(its heading matches at the second line start) are both detected, and
`extract_section_content` returns the identical non-empty span
(22, 32) — `"more text"` — for both, so the spans overlap. -/
theorem c4_counterexample :
    sectionPresent (detect_sections "associative\nexperience\nmore text".data)
      "experience" = true ∧
    sectionPresent (detect_sections "associative\nexperience\nmore text".data)
      "associative" = true ∧
    extractSpan "associative\nexperience\nmore text".data "experience" =
      some (22, 32) ∧
    extractSpan "associative\nexperience\nmore text".data "associative" =
      some (22, 32) ∧
    extract_section_content "associative\nexperience\nmore text".data
      "experience" = "more text".data ∧
    extract_section_content "associative\nexperience\nmore text".data
      "associative" = "more text".data ∧
    ¬ ((32 : Nat) ≤ 22 ∨ (32 : Nat) ≤ 22) := by
  decide

/-- Presence in the detected-section map is equivalent to one of the
section's own patterns matching (for an association-list shaped like
`sectionPatterns`). -/
theorem sectionPresent_detect (l : List (String × List RE)) (cs : List Char)
    (name : String) :
    sectionPresent (l.map (fun q =>
        (q.1, q.2.any fun r => (searchML r cs).isSome))) name =
      (((l.find? (fun q => q.1 = name)).map Prod.snd).getD []).any
        (fun r => (searchML r cs).isSome) := by
  induction l with
  | nil => simp [sectionPresent]
  | cons q l ih =>
    by_cases h : q.1 = name
    · simp [sectionPresent, List.find?, h]
    · simpa [sectionPresent, List.find?, h] using ih

/-- When no pattern of a section matches, the first-match loop finds
nothing. -/
theorem firstPatternSearch_none (ps : List RE) (cs : List Char)
    (h : ∀ r ∈ ps, searchML r cs = none) :
    firstPatternSearch ps cs = none := by
  induction ps with
  | nil => rfl
  | cons r rs ih =>
    have hr := h r (List.mem_cons_self r rs)
    simp only [firstPatternSearch, hr]
    exact ih fun r2 hr2 => h r2 (List.mem_cons_of_mem r hr2)

/-- Claim C4, amended: spans of two distinct detected sections can
overlap (see `c4_counterexample`, where one section's heading contains
another's and the two spans coincide), but the second half of the claim
holds — a section none of whose heading patterns matches anywhere in
the text is reported absent by `detect_sections` and has an empty span:
`extract_section_content` returns the empty string. -/
theorem c4_amended (text : String) (name : String)
    (_hname : name ∈ sectionNames)
    (hno : ∀ r ∈ patternsOf name, searchML r text.data = none) :
    sectionPresent (detect_sections text.data) name = false ∧
      extract_section_content text.data name = [] := by
  constructor
  · rw [detect_sections, sectionPresent_detect]
    have : (((sectionPatterns.find? (fun q => q.1 = name)).map Prod.snd).getD [])
        = patternsOf name := by
      simp [patternsOf]
    rw [this]
    simp only [List.any_eq_false]
    intro r hr
    simp [hno r hr]
  · unfold extract_section_content extractSpan
    rw [firstPatternSearch_none _ _ hno]

/-- Witness for `c4_amended`: in the document `"hello"` no pattern of
the `skills` section matches; the section is reported absent with an
empty span. -/
theorem c4_amended_witness :
    ("skills" ∈ sectionNames ∧ ∀ r ∈ patternsOf "skills",
        searchML r "hello".data = none) ∧
      sectionPresent (detect_sections "hello".data) "skills" = false ∧
        extract_section_content "hello".data "skills" = [] :=
  ⟨⟨by decide, by decide⟩, c4_amended "hello" "skills" (by decide) (by decide)⟩

/-- The first-match loop equals `find?` of the first pattern whose
search succeeds, followed by that search. -/
theorem firstPatternSearch_eq_find (ps : List RE) (cs : List Char) :
    firstPatternSearch ps cs =
      ((ps.find? (fun r => (searchML r cs).isSome)).map
        (fun r => searchML r cs)).getD none := by
  induction ps with
  | nil => rfl
  | cons r rs ih =>
    cases h : searchML r cs with
    | some m => simp [firstPatternSearch, List.find?, h]
    | none => simpa [firstPatternSearch, List.find?, h] using ih

/-- Pulling one `min` out of a `foldr min`. -/
theorem foldr_min_acc (L : List Nat) (a b : Nat) :
    L.foldr min (min a b) = min b (L.foldr min a) := by
  induction L with
  | nil => exact min_comm a b
  | cons c L ih =>
    simp only [List.foldr, ih]
    exact min_left_comm c b (L.foldr min a)

/-- The source's running-minimum `foldl` over optional positions equals
`foldr min` over the successful ones. -/
theorem foldl_min_eq_foldr (g : RE → Option Nat) (l : List RE) :
    ∀ init : Nat,
      l.foldl (fun m r => match g r with
        | some j => min m j
        | none => m) init =
      (l.filterMap g).foldr min init := by
  induction l with
  | nil => intro init; rfl
  | cons r l ih =>
    intro init
    cases h : g r with
    | none => simp only [List.foldl, List.filterMap_cons, h]; exact ih init
    | some j =>
      simp only [List.foldl, List.filterMap_cons, h, List.foldr]
      rw [ih (min init j)]
      exact foldr_min_acc _ init j

/-- Claim C5: `extract_section_content` refines the spec-side
description `extractSectionSpec` — the span start comes from the first
pattern in declared list order that matches (later-declared patterns
are ignored once one matches); the span ends at the minimum start
offset among the matches of every other section's patterns searched in
the text after the span start, or at end-of-text when none match; and
when no pattern for the named section matches at all, the result is the
empty string rather than an error. -/
theorem c5_extract_refinement (cs : List Char) (name : String) :
    extract_section_content cs name = extractSectionSpec cs name := by
  unfold extract_section_content extractSpan extractSectionSpec
  rw [firstPatternSearch_eq_find]
  cases hf : (patternsOf name).find? (fun r => (searchML r cs).isSome) with
  | none => rfl
  | some r =>
    have hs : (searchML r cs).isSome := by
      have := List.find?_some hf
      simpa using this
    cases hm : searchML r cs with
    | none => rw [hm] at hs; simp at hs
    | some m =>
      have h1 : ((some r).map (fun r => searchML r cs)).getD none = some m := by
        simp [hm]
      rw [h1]
      have hmin : minOtherPos name cs m.2 =
          ((otherPatterns name).filterMap
            (fun r2 => (searchML r2 (cs.drop m.2)).map
              (fun p => m.2 + p.1))).foldr min cs.length := by
        unfold minOtherPos
        have := foldl_min_eq_foldr
          (fun r2 => (searchML r2 (cs.drop m.2)).map (fun p => m.2 + p.1))
          (otherPatterns name) cs.length
        rw [← this]
        congr 1
        funext acc r2
        cases hsr : searchML r2 (cs.drop m.2) with
        | none => simp
        | some p => simp
      dsimp only
      rw [hmin, hm]

/-- In a text with no newline at all, the missing-structure check of
`check_formatting_issues` fires and the issue list is non-empty. -/
theorem structureIssue_of_no_newline (s : String) (h : '\n' ∉ s.data) :
    structureIssue ∈ (check_formatting_issues s).issues ∧
      (check_formatting_issues s).has_issues = true := by
  have hmem : '\n' ∉ s.data.take 200 := fun hx => h (List.take_subset _ _ hx)
  have hc : (s.data.take 200).contains '\n' = false := by
    simpa using hmem
  have hm : structureIssue ∈ (check_formatting_issues s).issues := by
    simp only [check_formatting_issues, hc]
    simp [List.mem_append]
  refine ⟨hm, ?_⟩
  show decide ((check_formatting_issues s).issues.length > 0) = true
  exact decide_eq_true (List.length_pos.mpr (List.ne_nil_of_mem hm))

/-- As soon as the formatting check reports an issue, the format
category loses its 3-point penalty and cannot exceed 12. -/
theorem format_breakdown_le (a : AnalysisResults)
    (h : a.format.formatting_issues.has_issues = true) :
    (calculate_score a).breakdown.format ≤ 12 := by
  unfold calculate_score
  dsimp only
  simp only [h, if_pos rfl, max_def]
  split_ifs <;> omega

/-- Claim C3: the formatting-issue check runs on the normalized text,
in which every newline has been collapsed to a space, so the missing
early-line-break issue fires for every document, `has_issues` is always
true, and the format category score never exceeds 12. -/
theorem c3_structure_issue_always (o : LingOracle) (year : Int) (raw : String) :
    structureIssue ∈
      (analyze_resume o year raw).analysis.format.formatting_issues.issues ∧
    (analyze_resume o year raw).analysis.format.formatting_issues.has_issues
      = true ∧
    (analyze_resume o year raw).score.breakdown.format ≤ 12 := by
  have hnl : '\n' ∉ (cleanText raw).data := cleanChars_no_newline raw.data
  obtain ⟨h1, h2⟩ := structureIssue_of_no_newline (cleanText raw) hnl
  have hfi : (analyze_resume o year raw).analysis.format.formatting_issues =
      check_formatting_issues (cleanText raw) := rfl
  refine ⟨by rw [hfi]; exact h1, by rw [hfi]; exact h2, ?_⟩
  exact format_breakdown_le (analyze_resume o year raw).analysis
    (by rw [hfi]; exact h2)

/-- Claim C6: analyzing the empty string is total (the model's guarded
averages and ratios make every division well-defined) and yields
word_count = 0, is_too_short = true, every section-presence flag false,
a missing-sections list holding all 8 section names, and a total score
within [0, 100] — for every linguistic oracle and clock year. -/
theorem c6_empty_document (o : LingOracle) (year : Int) :
    (apiAnalyze o year "").full_analysis.analysis.format.word_count = 0 ∧
    (apiAnalyze o year "").full_analysis.analysis.format.is_too_short = true ∧
    (apiAnalyze o year "").full_analysis.analysis.sections =
      [("experience", false), ("education", false), ("skills", false),
       ("projects", false), ("certifications", false), ("summary", false),
       ("associative", false), ("languages", false)] ∧
    (apiAnalyze o year "").sections_missing =
      ["experience", "education", "skills", "projects", "certifications",
       "summary", "associative", "languages"] ∧
    0 ≤ (apiAnalyze o year "").score ∧ (apiAnalyze o year "").score ≤ 100 := by
  refine ⟨?_, ?_, ?_, ?_, ?_, ?_⟩
  · simp only [apiAnalyze, analyze_resume]; decide
  · simp only [apiAnalyze, analyze_resume]; decide
  · simp only [apiAnalyze, analyze_resume]; decide
  · simp only [apiAnalyze, analyze_resume]; decide
  · exact (total_score_in_range (analyze_resume o year "").analysis).1
  · exact (total_score_in_range (analyze_resume o year "").analysis).2

/-- Everything in a rank bucket has that rank. -/
theorem rank_of_mem_filter (l : List Rec) (k : Nat) (x : Rec)
    (h : x ∈ l.filter (fun r => priorityRank r.priority = k)) :
    priorityRank x.priority = k := by
  have := List.of_mem_filter h
  simpa using this

/-- The priority rank never exceeds 3. -/
theorem priorityRank_le_three (p : String) : priorityRank p ≤ 3 := by
  unfold priorityRank
  split_ifs <;> omega

/-- Everything in the residual bucket has rank at least 3. -/
theorem rank_of_mem_filter_ge (l : List Rec) (x : Rec)
    (h : x ∈ l.filter (fun r => 3 ≤ priorityRank r.priority)) :
    3 ≤ priorityRank x.priority := by
  have := List.of_mem_filter h
  simpa using this

/-- The bucket concatenation is sorted by rank. -/
theorem sortRecs_pairwise (l : List Rec) :
    (sortRecs l).Pairwise
      (fun x y => priorityRank x.priority ≤ priorityRank y.priority) := by
  unfold sortRecs
  rw [List.append_assoc, List.append_assoc]
  refine (List.pairwise_append).mpr ⟨?_, ?_, ?_⟩
  · exact List.pairwise_of_forall_mem_list fun x hx y hy => by
      rw [rank_of_mem_filter l 0 x hx, rank_of_mem_filter l 0 y hy]
  · refine (List.pairwise_append).mpr ⟨?_, ?_, ?_⟩
    · exact List.pairwise_of_forall_mem_list fun x hx y hy => by
        rw [rank_of_mem_filter l 1 x hx, rank_of_mem_filter l 1 y hy]
    · refine (List.pairwise_append).mpr ⟨?_, ?_, ?_⟩
      · exact List.pairwise_of_forall_mem_list fun x hx y hy => by
          rw [rank_of_mem_filter l 2 x hx, rank_of_mem_filter l 2 y hy]
      · exact List.pairwise_of_forall_mem_list fun x hx y hy => by
          have hx3 := rank_of_mem_filter_ge l x hx
          have hy3 := rank_of_mem_filter_ge l y hy
          have hx4 := priorityRank_le_three x.priority
          have hy4 := priorityRank_le_three y.priority
          omega
      · intro x hx y hy
        have hx2 := rank_of_mem_filter l 2 x hx
        have hy3 := rank_of_mem_filter_ge l y hy
        omega
    · intro x hx y hy
      have hx1 := rank_of_mem_filter l 1 x hx
      rcases List.mem_append.mp hy with h2 | h3
      · rw [hx1, rank_of_mem_filter l 2 y h2]; omega
      · have := rank_of_mem_filter_ge l y h3; omega
  · intro x hx y hy
    have hx0 := rank_of_mem_filter l 0 x hx
    rw [hx0]
    omega

/-- Filtering the residual bucket by an exact rank `k ≥ 3` recovers the
rank-`k` elements. -/
theorem filter_rank_filter_ge (l : List Rec) (k : Nat) (hk : 3 ≤ k) :
    (l.filter (fun r => 3 ≤ priorityRank r.priority)).filter
        (fun r => priorityRank r.priority = k) =
      l.filter (fun r => priorityRank r.priority = k) := by
  induction l with
  | nil => rfl
  | cons x l ih =>
    by_cases hx : priorityRank x.priority = k
    · have h3 : 3 ≤ priorityRank x.priority := by omega
      simp [List.filter, hx, h3, hk, ih]
    · by_cases h3 : 3 ≤ priorityRank x.priority
      · simp [List.filter, hx, h3, ih]
      · simp [List.filter, hx, h3, ih]

/-- Filtering one rank bucket by a different rank gives nothing. -/
theorem filter_rank_filter_ne (l : List Rec) (i k : Nat) (hik : i ≠ k) :
    (l.filter (fun r => priorityRank r.priority = i)).filter
        (fun r => priorityRank r.priority = k) = [] := by
  rw [List.filter_eq_nil_iff]
  intro x hx
  have := rank_of_mem_filter l i x hx
  simp [this, hik]

/-- Filtering the residual bucket by a rank below 3 gives nothing. -/
theorem filter_rank_filter_ge_lt (l : List Rec) (k : Nat) (hk : k < 3) :
    (l.filter (fun r => 3 ≤ priorityRank r.priority)).filter
        (fun r => priorityRank r.priority = k) = [] := by
  rw [List.filter_eq_nil_iff]
  intro x hx
  have := rank_of_mem_filter_ge l x hx
  simp only [decide_eq_true_eq]
  omega

/-- Filtering a bucket by its own rank is the identity. -/
theorem filter_rank_filter_self (l : List Rec) (k : Nat) :
    (l.filter (fun r => priorityRank r.priority = k)).filter
        (fun r => priorityRank r.priority = k) =
      l.filter (fun r => priorityRank r.priority = k) :=
  List.filter_eq_self.mpr fun x hx => by
    simp [rank_of_mem_filter l k x hx]

/-- Stability of the bucket sort: each rank's subsequence is untouched. -/
theorem sortRecs_stable (l : List Rec) (k : Nat) :
    (sortRecs l).filter (fun r => priorityRank r.priority = k) =
      l.filter (fun r => priorityRank r.priority = k) := by
  unfold sortRecs
  simp only [List.filter_append]
  match k with
  | 0 =>
    rw [filter_rank_filter_self, filter_rank_filter_ne l 1 0 (by omega),
      filter_rank_filter_ne l 2 0 (by omega),
      filter_rank_filter_ge_lt l 0 (by omega)]
    simp
  | 1 =>
    rw [filter_rank_filter_self, filter_rank_filter_ne l 0 1 (by omega),
      filter_rank_filter_ne l 2 1 (by omega),
      filter_rank_filter_ge_lt l 1 (by omega)]
    simp
  | 2 =>
    rw [filter_rank_filter_self, filter_rank_filter_ne l 0 2 (by omega),
      filter_rank_filter_ne l 1 2 (by omega),
      filter_rank_filter_ge_lt l 2 (by omega)]
    simp
  | k + 3 =>
    rw [filter_rank_filter_ge l (k + 3) (by omega),
      filter_rank_filter_ne l 0 (k + 3) (by omega),
      filter_rank_filter_ne l 1 (k + 3) (by omega),
      filter_rank_filter_ne l 2 (k + 3) (by omega)]
    simp

/-- A rank-0 head stays in front after the bucket sort, and any rank-2
element of the list lands strictly after it. -/
theorem sortRecs_head_low_after (g' : List Rec) (x y : Rec)
    (hx : priorityRank x.priority = 0) (hy : priorityRank y.priority = 2)
    (hmem : y ∈ x :: g') :
    (sortRecs (x :: g')).head? = some x ∧ y ∈ (sortRecs (x :: g')).tail := by
  have hcons : (x :: g').filter (fun r => priorityRank r.priority = 0) =
      x :: g'.filter (fun r => priorityRank r.priority = 0) := by
    simp [List.filter, hx]
  have hy2 : y ∈ (x :: g').filter (fun r => priorityRank r.priority = 2) :=
    List.mem_filter.mpr ⟨hmem, by simp [hy]⟩
  constructor
  · unfold sortRecs
    rw [hcons]
    rfl
  · unfold sortRecs
    rw [hcons]
    simp only [List.cons_append, List.tail_cons]
    simp only [List.mem_append]
    left; right
    exact hy2

/-- Claim C7: `generate_recommendations` returns its list stably sorted
by priority rank HIGH(0) < MEDIUM(1) < LOW(2) — ranks are
non-decreasing along the output and each rank's subsequence keeps the
original generation order — and for every analysis input with a missing
email (HIGH) and excessive filler words (LOW), the missing-email
recommendation is the head of the output while the filler
recommendation comes later. -/
theorem c7_recommendation_order (a : AnalysisResults)
    (hemail : a.contacts.emails = [])
    (hfill : a.fillers.has_too_many = true) :
    (generate_recommendations a).Pairwise
      (fun x y => priorityRank x.priority ≤ priorityRank y.priority) ∧
    (∀ k, (generate_recommendations a).filter
        (fun r => priorityRank r.priority = k) =
      (genRecommendations a).filter (fun r => priorityRank r.priority = k)) ∧
    (generate_recommendations a).head? = some emailRec ∧
    fillerRec a ∈ (generate_recommendations a).tail := by
  refine ⟨sortRecs_pairwise _, fun k => sortRecs_stable _ k, ?_⟩
  obtain ⟨g', hg⟩ : ∃ g', genRecommendations a = emailRec :: g' := by
    unfold genRecommendations
    rw [if_pos hemail]
    exact ⟨_, rfl⟩
  have hmem : fillerRec a ∈ genRecommendations a := by
    simp only [genRecommendations, if_pos hfill, List.mem_append,
      List.mem_singleton]
    tauto
  rw [hg] at hmem
  have := sortRecs_head_low_after g' emailRec (fillerRec a) rfl rfl hmem
  unfold generate_recommendations
  rw [hg]
  exact this

/-- A concrete input for the C7 witness: no email, plenty of filler
words. -/
def c7Input : AnalysisResults :=
  { allContactsInput with
    contacts :=
      { emails := [], phones := [], location := "", linkedin := []
        github := [] }
    fillers :=
      { filler_count := 7
        filler_words := ["very", "really", "just", "actually", "basically",
                         "literally", "obviously"]
        has_too_many := true } }

/-- Witness for `c7_recommendation_order` at `c7Input`. -/
theorem c7_recommendation_order_witness :
    (c7Input.contacts.emails = [] ∧ c7Input.fillers.has_too_many = true) ∧
    ((generate_recommendations c7Input).head? = some emailRec ∧
      fillerRec c7Input ∈ (generate_recommendations c7Input).tail) :=
  ⟨⟨rfl, rfl⟩, (c7_recommendation_order c7Input rfl rfl).2.2⟩

set_option maxRecDepth 10000 in
/-- Claim C8: `extract_location` is total and returns exactly one
string — the first entry of the pass-ordered `locations_found` list
(stripped), or the empty string when no pass finds anything — and on
the input `"Experience in Tunis, worked with clients in Morocco"` it
returns the non-empty string `"Tunis"` (pass 1 finds no
`City, Country` pair because the word after the comma is lowercase;
pass 2 finds the city `Tunis`). -/
theorem c8_extract_location :
    (∀ text : String, extract_location text =
      (((locationsFound text).head?).map
        (fun l => (⟨pyStrip l⟩ : String))).getD "") ∧
    extract_location "Experience in Tunis, worked with clients in Morocco" =
      "Tunis" ∧
    ("Tunis" : String) ≠ "" ∧
    (extract_location "Experience in Tunis, worked with clients in Morocco" =
        "Tunis" ∨
     extract_location "Experience in Tunis, worked with clients in Morocco" =
        "Morocco") := by
  have h : extract_location
      "Experience in Tunis, worked with clients in Morocco" = "Tunis" := by
    decide
  refine ⟨?_, h, by decide, Or.inl h⟩
  intro text
  unfold extract_location
  cases locationsFound text <;> rfl

/-- Does some heading pattern of the section match at the very start of
the text (Python `re.match` semantics at offset 0)? -/
def headingAtTextStart (name : String) (cs : List Char) : Bool :=
  (patternsOf name).any (fun r => matchesAtStart r cs)

/-- Scanning a newline-free suffix from a mid-text position (previous
character not a newline) never finds a `^`-anchored match. -/
theorem searchMLFrom_none_of_no_nl (r : RE) :
    ∀ (cs : List Char), (∀ c ∈ cs, c ≠ '\n') →
      ∀ (c0 : Char), c0 ≠ '\n' → ∀ i,
        searchMLFrom r (some c0) cs i = none := by
  intro cs
  induction cs with
  | nil =>
    intro _ c0 hc0 i
    rw [searchMLFrom.eq_def]
    simp [hc0]
  | cons c rest ih =>
    intro h c0 hc0 i
    rw [searchMLFrom.eq_def]
    simp only [hc0]
    have : (decide (some c0 = none) || decide (some c0 = some '\n')) = false := by
      simp [hc0]
    rw [this]
    simp only [Bool.false_eq_true, if_false, List.head?_nil]
    exact ih (fun d hd => h d (List.mem_cons_of_mem c hd)) c
      (h c (List.mem_cons_self c rest)) (i + 1)

/-- In a newline-free text, a `^`-anchored search succeeds only at
offset 0: if the pattern does not match at the start, the search finds
nothing. -/
theorem searchML_none_of_no_nl (r : RE) (cs : List Char)
    (hnl : '\n' ∉ cs) (h : matchLens r none cs = []) :
    searchML r cs = none := by
  unfold searchML
  rw [searchMLFrom.eq_def]
  simp only [h]
  cases cs with
  | nil => rfl
  | cons c rest =>
    simp only [List.head?_nil]
    exact searchMLFrom_none_of_no_nl r rest
      (fun d hd => fun hdeq => hnl (hdeq ▸ List.mem_cons_of_mem c hd)) c
      (fun hceq => hnl (hceq ▸ List.mem_cons_self c rest)) 1

/-- If the first-match loop found something, some pattern's search
succeeded. -/
theorem exists_of_firstPatternSearch_ne_none (ps : List RE) (cs : List Char)
    (h : firstPatternSearch ps cs ≠ none) :
    ∃ r ∈ ps, searchML r cs ≠ none := by
  by_contra hall
  push_neg at hall
  exact h (firstPatternSearch_none ps cs hall)

/-- Claim C9: `get_text_to_improve` extracts the experience section
from the normalized text, which contains no newline, while the heading
patterns are line-anchored; hence whenever the normalized text does not
begin with an experience heading match the result is the empty list,
and a non-empty result forces both a heading match at offset 0 of the
normalized text and a positive weak-verb count. -/
theorem c9_improve_requires_heading (o : LingOracle) (year : Int)
    (raw : String) :
    (headingAtTextStart "experience" (cleanText raw).data = false →
      get_text_to_improve o year raw = []) ∧
    (get_text_to_improve o year raw ≠ [] →
      headingAtTextStart "experience" (cleanText raw).data = true ∧
      (analyze_resume o year raw).analysis.verb_analysis.weak_count > 0) := by
  have hclean : (analyze_resume o year raw).analysis.clean_text =
      cleanText raw := rfl
  have hnl : '\n' ∉ (cleanText raw).data := cleanChars_no_newline raw.data
  constructor
  · intro hno
    have hall : ∀ r ∈ patternsOf "experience",
        searchML r (cleanText raw).data = none := by
      intro r hr
      apply searchML_none_of_no_nl r _ hnl
      have := (List.any_eq_false).mp (by simpa [headingAtTextStart] using hno)
        r hr
      simpa [matchesAtStart, List.isEmpty_iff] using this
    have hext : extractSectionStr (cleanText raw) "experience" = "" := by
      show (⟨extract_section_content (cleanText raw).data "experience"⟩ :
        String) = ""
      unfold extract_section_content extractSpan
      rw [firstPatternSearch_none _ _ hall]
    simp only [get_text_to_improve]
    rw [hclean, hext]
    simp
  · intro hne
    simp only [get_text_to_improve] at hne
    rw [hclean] at hne
    by_cases hc : extractSectionStr (cleanText raw) "experience" ≠ "" ∧
        (analyze_resume o year raw).analysis.verb_analysis.weak_count > 0
    · refine ⟨?_, hc.2⟩
      have hfp : firstPatternSearch (patternsOf "experience")
          (cleanText raw).data ≠ none := by
        intro hfpn
        apply hc.1
        show (⟨extract_section_content (cleanText raw).data "experience"⟩ :
          String) = ""
        unfold extract_section_content extractSpan
        rw [hfpn]
      obtain ⟨r, hr, hsr⟩ :=
        exists_of_firstPatternSearch_ne_none _ _ hfp
      have hml : matchLens r none (cleanText raw).data ≠ [] := by
        intro hml
        exact hsr (searchML_none_of_no_nl r _ hnl hml)
      refine (List.any_eq_true).mpr ⟨r, hr, ?_⟩
      simpa [matchesAtStart, List.isEmpty_iff] using hml
    · rw [if_neg hc] at hne
      exact absurd rfl hne

/-- A degraded linguistic capability (spaCy unavailable): empty
results, as the spec requires for absence of the parser. -/
def nilOracle : LingOracle :=
  { passiveVerbs := fun _ => []
    sentenceStats := fun _ =>
      { sentence_count := 0, avg_sentence_length := 0
        long_sentences_count := 0, has_long_sentences := false } }

/-- Witness for `c9_improve_requires_heading`: the document `"hello"`
does not start with an experience heading, so there is nothing to
improve. -/
theorem c9_improve_requires_heading_witness :
    headingAtTextStart "experience" (cleanText "hello").data = false ∧
      get_text_to_improve nilOracle 2025 "hello" = [] :=
  ⟨by decide,
    (c9_improve_requires_heading nilOracle 2025 "hello").1 (by decide)⟩

/-- Claim C10: the analysis is deterministic and idempotent — running
`analyze` a second time on the same text yields the identical output
(every nested field of `ApiResult`, by equality of the whole record),
and the analyzer's process-wide environment (the loaded linguistic
capability and the clock year) is left untouched by each call.  The
model reads the clock year once per call from the read-only
environment; the source consults `datetime.now()` directly, so two
calls straddling a calendar-year boundary could differ — real time is
outside this embedding. -/
theorem c10_idempotent_analysis (st : AnalyzerState) (t : String) :
    (analyzeStateful st t).2 = st ∧
    (analyzeStateful ((analyzeStateful st t).2) t).1 =
      (analyzeStateful st t).1 ∧
    (∀ st2 : AnalyzerState, st2.oracle = st.oracle → st2.year = st.year →
      (analyzeStateful st2 t).1 = (analyzeStateful st t).1) := by
  refine ⟨rfl, rfl, ?_⟩
  intro st2 ho hy
  show apiAnalyze st2.oracle st2.year t = apiAnalyze st.oracle st.year t
  rw [ho, hy]

/-- Witness for `c10_idempotent_analysis` at a concrete state and
document. -/
theorem c10_idempotent_analysis_witness :
    (analyzeStateful ⟨nilOracle, 2025⟩ "experience\n- led a team").2 =
        ⟨nilOracle, 2025⟩ ∧
      (analyzeStateful
          ((analyzeStateful ⟨nilOracle, 2025⟩ "experience\n- led a team").2)
          "experience\n- led a team").1 =
        (analyzeStateful ⟨nilOracle, 2025⟩ "experience\n- led a team").1 ∧
      (analyzeStateful ⟨nilOracle, 2025⟩ "experience\n- led a team").1 =
        (analyzeStateful ⟨nilOracle, 2025⟩ "experience\n- led a team").1 :=
  ⟨(c10_idempotent_analysis ⟨nilOracle, 2025⟩ "experience\n- led a team").1,
   (c10_idempotent_analysis ⟨nilOracle, 2025⟩ "experience\n- led a team").2.1,
   (c10_idempotent_analysis ⟨nilOracle, 2025⟩ "experience\n- led a team").2.2
     ⟨nilOracle, 2025⟩ rfl rfl⟩

end ResumeAnalyzer
